import Mathlib

set_option maxHeartbeats 1000000
set_option linter.unusedVariables false

/-! Verification of the SQL query-builder core of the `rwf` repository:
the predicate algebra (`Filter`, `Comparison`, `WhereClause`) from
`src/rum/src/model/filter.rs` and the `Insert` statement builder from
`src/rwf/src/model/insert.rs`.  The shared collaborator types
(`Value`, `Column`, `Placeholders`, the `Escape` contract and the
`Model` column-derivation contract) are not part of the provided
sources and are modelled from the specification.  Everything lives in
the `Rwf` namespace because `Filter` and `Insert` already exist in
Mathlib. -/

namespace Rwf

/-- The single-quote character. -/
def squote : Char := Char.ofNat 39

/-- The double-quote character. -/
def dquote : Char := Char.ofNat 34

/-- Decimal digit as a character, for the embedding of Rust's integer
formatting. -/
def digitChar (n : Nat) : Char :=
  match n with
  | 0 => '0' | 1 => '1' | 2 => '2' | 3 => '3' | 4 => '4'
  | 5 => '5' | 6 => '6' | 7 => '7' | 8 => '8' | _ => '9'

/-- Fuel-driven decimal expansion of a natural number; with fuel at least
one plus the number the recursion always terminates before the fuel runs
out. -/
def natDigitsAux : Nat → Nat → List Char
  | 0, _ => []
  | fuel + 1, n =>
    if n < 10 then [digitChar n]
    else natDigitsAux fuel (n / 10) ++ [digitChar (n % 10)]

/-- Decimal rendering of a natural number, as produced by Rust's
`format!("{}", n)`. -/
def natToString (n : Nat) : String := String.mk (natDigitsAux (n + 1) n)

/-- Decimal rendering of an `i64`, as produced by Rust's `Display`. -/
def intToString (i : Int) : String :=
  if i < 0 then "-" ++ natToString i.natAbs else natToString i.toNat

/-- The character content of a string. -/
def chars (s : String) : List Char := s.data

/-- Modelled from the spec: the value-rendering contract escapes string
literals by doubling each single quote (source `value.rs` not provided). -/
def escSingleL : List Char → List Char
  | [] => []
  | c :: cs =>
    if c = squote then squote :: squote :: escSingleL cs else c :: escSingleL cs

/-- Modelled from the spec: single-quote escaping of a string literal body. -/
def escSingle (s : String) : String := String.mk (escSingleL s.data)

/-- Modelled from the spec: the identifier-rendering contract escapes a
double-quoted identifier by doubling each double quote (source of the
`Escape` trait not provided). -/
def escIdentL : List Char → List Char
  | [] => []
  | c :: cs =>
    if c = dquote then dquote :: dquote :: escIdentL cs else c :: escIdentL cs

/-- Modelled from the spec: `str.escape()` on an identifier. -/
def escIdent (s : String) : String := String.mk (escIdentL s.data)

/-- Rust's `Vec<String>::join(sep)`. -/
def joinStr (sep : String) : List String → String
  | [] => ""
  | [s] => s
  | s :: s2 :: rest => s ++ sep ++ joinStr sep (s2 :: rest)

/-- Modelled from the spec: the bindable `Value` union (source `value.rs`
not provided) restricted to the variants the filter and insert claims
need: strings, integers, lists and the `Record` marker. -/
inductive Value where
  | string (s : String)
  | integer (i : Int)
  | list (xs : List Value)
  | record (v : Value)

/-- Whether a value is the `Record` variant. -/
def Value.isRecord : Value → Bool
  | .record _ => true
  | _ => false

mutual

/-- Modelled from the spec: the value-rendering contract `Value::to_sql`:
strings as single-quoted escaped literals, integers as decimal text,
lists as array literals such as `{56, 67}`; a `Record` renders as its
wrapped value. -/
def Value.to_sql : Value → String
  | .string s => String.mk [squote] ++ escSingle s ++ String.mk [squote]
  | .integer i => intToString i
  | .list xs => "\x7b" ++ joinStr ", " (Value.listToSql xs) ++ "\x7d"
  | .record v => Value.to_sql v

/-- Renderings of a list of values, elementwise. -/
def Value.listToSql : List Value → List String
  | [] => []
  | v :: vs => Value.to_sql v :: Value.listToSql vs

end

mutual

/-- Characters of all string scalars embedded in a value (the data that
flows into its rendering besides fixed punctuation). -/
def Value.strChars : Value → List Char
  | .string s => chars s
  | .integer _ => []
  | .list xs => Value.listStrChars xs
  | .record v => Value.strChars v

/-- Characters of the string scalars of a list of values. -/
def Value.listStrChars : List Value → List Char
  | [] => []
  | v :: vs => Value.strChars v ++ Value.listStrChars vs

end

/-- Modelled from the spec: `Column { table: Option<String>, name: String }`
(source `column.rs` not provided). -/
structure Column where
  table : Option String
  name : String

/-- Modelled from the spec: `Column::new(table, name)` builds a qualified
column. -/
def Column.new (table : String) (name : String) : Column := ⟨some table, name⟩

/-- Modelled from the spec: `Column::name(name)` builds an unqualified
column (named `nameOnly` here because `name` is the field). -/
def Column.nameOnly (name : String) : Column := ⟨none, name⟩

/-- Modelled from the spec: `Column::to_sql` renders `"table"."name"` when
qualified and `"name"` otherwise, through the identifier-escaping
contract. -/
def Column.to_sql (c : Column) : String :=
  match c.table with
  | some t =>
    String.mk [dquote] ++ escIdent t ++ String.mk [dquote, '.', dquote] ++
      escIdent c.name ++ String.mk [dquote]
  | none => String.mk [dquote] ++ escIdent c.name ++ String.mk [dquote]

/-- Modelled from the spec: `Column::unqualify` strips the table prefix. -/
def Column.unqualify (c : Column) : Column := ⟨none, c.name⟩

/-- Characters of the identifier data carried by a column. -/
def Column.dataChars (c : Column) : List Char :=
  (match c.table with | some t => chars t | none => []) ++ chars c.name

/-- Type of connecting operation between two filters (`JoinOp` in
`filter.rs`); the Rust `#[default]` is `And`. -/
inductive JoinOp where
  | And
  | Or
deriving DecidableEq

/-- `JoinOp::to_sql`. -/
def JoinOp.to_sql : JoinOp → String
  | .And => "AND"
  | .Or => "OR"

mutual

/-- A single predicate (`Comparison` in `filter.rs`): equality,
membership, their negations, or a nested sub-filter. -/
inductive Comparison where
  | Equal (col : Column) (v : Value)
  | In (col : Column) (v : Value)
  | NotIn (col : Column) (v : Value)
  | NotEqual (col : Column) (v : Value)
  | Filter (f : Filter)

/-- A filter to be applied using the WHERE clause (`Filter` in
`filter.rs`): an ordered clause list joined by a single operator. -/
inductive Filter where
  | mk (clauses : List Comparison) (op : JoinOp)

end

/-- The clause list of a filter. -/
def Filter.clauses : Filter → List Comparison
  | .mk cs _ => cs

/-- The join operator of a filter. -/
def Filter.op : Filter → JoinOp
  | .mk _ o => o

mutual

/-- `Comparison::to_sql`: `Equal`/`NotEqual` render `<col> = <val>` and
`<col> <> <val>`; `In`/`NotIn` render `<col> = ANY(<val>)` and
`<col> <> ANY(<val>)`; a nested filter renders parenthesized. -/
def Comparison.to_sql : Comparison → String
  | .Equal col v => col.to_sql ++ " = " ++ v.to_sql
  | .In col v => col.to_sql ++ " = ANY(" ++ v.to_sql ++ ")"
  | .NotIn col v => col.to_sql ++ " <> ANY(" ++ v.to_sql ++ ")"
  | .NotEqual col v => col.to_sql ++ " <> " ++ v.to_sql
  | .Filter f => "(" ++ Filter.to_sql f ++ ")"

/-- `Filter::to_sql`: the clause renderings joined by `" <OP> "`. -/
def Filter.to_sql : Filter → String
  | .mk cs o => joinStr (" " ++ o.to_sql ++ " ") (Comparison.listToSql cs)

/-- Renderings of a clause list, elementwise (the `map` in
`Filter::to_sql`). -/
def Comparison.listToSql : List Comparison → List String
  | [] => []
  | c :: cs => Comparison.to_sql c :: Comparison.listToSql cs

end

mutual

/-- Characters of the identifiers and string scalars carried by a
predicate. -/
def Comparison.dataChars : Comparison → List Char
  | .Equal col v => col.dataChars ++ v.strChars
  | .In col v => col.dataChars ++ v.strChars
  | .NotIn col v => col.dataChars ++ v.strChars
  | .NotEqual col v => col.dataChars ++ v.strChars
  | .Filter f => Filter.dataChars f

/-- Characters of the identifiers and string scalars carried by a
filter. -/
def Filter.dataChars : Filter → List Char
  | .mk cs _ => Comparison.listDataChars cs

/-- Characters of the data carried by a clause list. -/
def Comparison.listDataChars : List Comparison → List Char
  | [] => []
  | c :: cs => Comparison.dataChars c ++ Comparison.listDataChars cs

end

/-- `Filter::is_empty`. -/
def Filter.is_empty (f : Filter) : Bool := f.clauses.isEmpty

/-- `Filter::add`: a `Record` value becomes a membership comparison
(`In`), any other value an equality comparison (`ToValue` is modelled as
the identity on `Value`); the new clause is pushed at the end. -/
def Filter.add (f : Filter) (column : Column) (value : Value) : Filter :=
  match value with
  | .record v => .mk (f.clauses ++ [.In column v]) f.op
  | v => .mk (f.clauses ++ [.Equal column v]) f.op

/-- `Filter::add_not`: the negated counterpart of `add`. -/
def Filter.add_not (f : Filter) (column : Column) (value : Value) : Filter :=
  match value with
  | .record v => .mk (f.clauses ++ [.NotIn column v]) f.op
  | v => .mk (f.clauses ++ [.NotEqual column v]) f.op

/-- `Filter::concat`: the source asserts `self.op == filter.op` and then
flattens the clause lists; the assertion failure is modelled as `none`. -/
def Filter.concat (f : Filter) (other : Filter) : Option Filter :=
  if f.op = other.op then some (.mk (f.clauses ++ other.clauses) f.op) else none

/-- `Filter::join`: the empty receiver returns the other filter
unchanged, otherwise both operands are wrapped as nested sub-filters. -/
def Filter.join (f : Filter) (o : JoinOp) (other : Filter) : Filter :=
  if f.is_empty then other else .mk [.Filter f, .Filter other] o

/-- `Filter::or`. -/
def Filter.or (f : Filter) (other : Filter) : Filter := f.join .Or other

/-- `Filter::and`. -/
def Filter.and (f : Filter) (other : Filter) : Filter := f.join .And other

/-- `Filter::default()`: empty clause list and the default `And`
operator. -/
def Filter.default : Filter := .mk [] .And

/-- The WHERE clause of a SQL query (`WhereClause` in `filter.rs`). -/
structure WhereClause where
  filter : Filter

/-- `WhereClause::to_sql`: empty string for an empty filter, otherwise
`" WHERE "` followed by the filter's rendering. -/
def WhereClause.to_sql (w : WhereClause) : String :=
  if w.filter.is_empty then "" else " WHERE " ++ w.filter.to_sql

/-- The `Insert<T>` statement builder from `insert.rs`; `Placeholders` is
modelled from the spec as the ordered list of bound values. -/
structure Insert where
  table_name : String
  columns : List Column
  placeholders : List Value
  no_conflict : Bool
  unique_by : List Column

/-- `Insert::new(model)`: the typed-record path; the `Model` contract is
modelled from the spec as the record's table name, its ordered column
names and its ordered values. -/
def Insert.new (table : String) (column_names : List String)
    (values : List Value) : Insert :=
  ⟨table, column_names.map Column.nameOnly, values, false, []⟩

/-- `Insert::from_columns(columns, values)` (`ToColumn`/`ToValue`
modelled as identities on `Column`/`Value`): each column is unqualified
before storage. -/
def Insert.from_columns (table : String) (columns : List Column)
    (values : List Value) : Insert :=
  ⟨table, columns.map Column.unqualify, values, false, []⟩

/-- The `no_conflict` local of `Insert::to_sql`: the rendered conflict
clause, checking the `no_conflict` flag first, then `unique_by`. -/
def Insert.conflictClause (i : Insert) : String :=
  if i.no_conflict then "ON CONFLICT DO NOTHING "
  else if !i.unique_by.isEmpty then
    "ON CONFLICT (" ++
      joinStr ", " ((i.unique_by.map Column.unqualify).map Column.to_sql) ++
      ") DO UPDATE SET " ++
      joinStr ", "
        ((i.unique_by.map Column.unqualify).map
          (fun c => c.to_sql ++ " = EXCLUDED." ++ c.to_sql)) ++ " "
  else ""

/-- `Insert::to_sql`: placeholder markers are regenerated at render time,
one per column, as `$1 ..`; the statement always ends in `RETURNING *`. -/
def Insert.to_sql (i : Insert) : String :=
  "INSERT INTO " ++ String.mk [dquote] ++ escIdent i.table_name ++
    String.mk [dquote] ++ " (" ++
    joinStr ", " (i.columns.map Column.to_sql) ++ ") VALUES (" ++
    joinStr ", "
      ((List.range i.columns.length).map (fun k => "$" ++ natToString (k + 1))) ++
    ") " ++ i.conflictClause ++ "RETURNING *"

/-- Ordinary SQL identifier characters: lowercase ASCII letters, digits
and underscore. -/
def lowerIdentChar (c : Char) : Bool := c.isLower || c.isDigit || c = '_'

/-- All characters of the string are ordinary identifier characters. -/
def identOk (s : String) : Bool := s.data.all lowerIdentChar

/-- All identifier data of a column is made of ordinary identifier
characters. -/
def Column.identOk (c : Column) : Bool := c.dataChars.all lowerIdentChar

/-- Characters of the identifier data carried by an insert statement. -/
def Insert.dataChars (i : Insert) : List Char :=
  chars i.table_name ++ (i.columns.map Column.dataChars).flatten ++
    (i.unique_by.map Column.dataChars).flatten

/-- All identifiers of the insert are made of ordinary identifier
characters. -/
def Insert.identOk (i : Insert) : Bool := i.dataChars.all lowerIdentChar

/-- Every character the fixed skeleton of a rendered filter can emit. -/
def filterSkelChars : List Char :=
  chars "ANDORY =<>()\x7b\x7d,.-0123456789" ++ [squote, dquote]

/-- Every character the fixed skeleton of a rendered value can emit. -/
def valueSkelChars : List Char :=
  chars "\x7b\x7d, -0123456789" ++ [squote]

/-- Every character the fixed skeleton of a rendered `ON CONFLICT DO
NOTHING` insert can emit. -/
def insertSkelNC : List Char :=
  chars "INSERT OVALUCFDHG$(),.*0123456789" ++ [dquote]

/-- Every character the fixed skeleton of a rendered `ON CONFLICT ... DO
UPDATE` insert can emit. -/
def insertSkelUB : List Char :=
  chars "INSERT OVALUCFDPXG=$(),.*0123456789" ++ [dquote]



/-- The part of `Insert::to_sql` before the conflict clause (`INSERT INTO
"<table>" (<cols>) VALUES (<placeholders>) `); `Insert.to_sql` is
definitionally this prefix, then the conflict clause, then
`RETURNING *`. -/
def Insert.preSql (i : Insert) : String :=
  "INSERT INTO " ++ String.mk [dquote] ++ escIdent i.table_name ++
    String.mk [dquote] ++ " (" ++
    joinStr ", " (i.columns.map Column.to_sql) ++ ") VALUES (" ++
    joinStr ", "
      ((List.range i.columns.length).map (fun k => "$" ++ natToString (k + 1))) ++
    ") "

/-- Every character the fixed skeleton of the pre-conflict part of an
insert can emit. -/
def insertPreSkel : List Char :=
  chars "INSERT OVALU$(),.0123456789" ++ [dquote]

/-! Helper lemmas. -/

theorem chars_append (s t : String) : chars (s ++ t) = chars s ++ chars t := rfl

theorem chars_mk (l : List Char) : chars (String.mk l) = l := rfl

theorem joinStr_pair (sep x y : String) : joinStr sep [x, y] = x ++ sep ++ y := rfl

theorem joinStr_append (sep : String) : ∀ (l1 l2 : List String), l1 ≠ [] → l2 ≠ [] →
    joinStr sep (l1 ++ l2) = joinStr sep l1 ++ sep ++ joinStr sep l2
  | [], _, h, _ => absurd rfl h
  | [a], b :: bs, _, _ => by simp [joinStr]
  | a :: a2 :: as, b :: bs, _, h2 => by
    have ih := joinStr_append sep (a2 :: as) (b :: bs) (by simp) h2
    show a ++ sep ++ joinStr sep (a2 :: (as ++ b :: bs)) =
      a ++ sep ++ joinStr sep (a2 :: as) ++ sep ++ joinStr sep (b :: bs)
    rw [List.cons_append] at ih
    rw [ih]
    simp [String.append_assoc]

theorem listToSql_append : ∀ (a b : List Comparison),
    Comparison.listToSql (a ++ b) = Comparison.listToSql a ++ Comparison.listToSql b
  | [], b => rfl
  | c :: cs, b => by
    rw [List.cons_append]
    show Comparison.to_sql c :: Comparison.listToSql (cs ++ b) = _
    rw [listToSql_append cs b]
    rfl

theorem listToSql_ne {l : List Comparison} (h : l ≠ []) : Comparison.listToSql l ≠ [] := by
  cases l with
  | nil => exact absurd rfl h
  | cons a as => show Comparison.to_sql a :: Comparison.listToSql as ≠ []; simp

theorem is_empty_false {f : Filter} (h : f.clauses ≠ []) : f.is_empty = false := by
  obtain ⟨cs, o⟩ := f
  cases cs with
  | nil => exact absurd rfl h
  | cons a as => rfl

theorem join_not_empty {f : Filter} (h : f.is_empty = false) (o : JoinOp) (g : Filter) :
    f.join o g = .mk [.Filter f, .Filter g] o := by
  simp [Filter.join, h]

theorem to_sql_eq (f : Filter) :
    f.to_sql = joinStr (" " ++ f.op.to_sql ++ " ") (Comparison.listToSql f.clauses) := by
  cases f
  rfl

theorem sepAnd_eq : (" " : String) ++ JoinOp.And.to_sql ++ " " = " AND " := by decide

theorem sepOr_eq : (" " : String) ++ JoinOp.Or.to_sql ++ " " = " OR " := by decide

/-! Claim theorems. -/

/-- C1 (counterexample): `add` with the concrete `List` value `[1, 2]`
renders as `<col> = {1, 2}`, not as the membership form
`<col> = ANY({1, 2})` that the claim asserts for `List` values. -/
theorem c1_list_add_counterexample :
    (Filter.add (Filter.mk [] JoinOp.And) (Column.new "t" "c")
        (Value.list [Value.integer 1, Value.integer 2])).to_sql =
      "\"t\".\"c\" = \x7b1, 2\x7d" ∧
    (Filter.add (Filter.mk [] JoinOp.And) (Column.new "t" "c")
        (Value.list [Value.integer 1, Value.integer 2])).to_sql ≠
      "\"t\".\"c\" = ANY(\x7b1, 2\x7d)" := by
  constructor
  · decide
  · decide

/-- C1 (amended): only a `Record` value passed to `add`/`add_not` becomes
a membership comparison (rendering `<col> = ANY(<val>)` resp.
`<col> <> ANY(<val>)`); every other value — including `List` — becomes a
scalar comparison rendering `<col> = <val>` / `<col> <> <val>`; in
particular `add(col, Integer(1))` renders `<col> = 1` and
`add(col, List([1,2]))` renders `<col> = {1, 2}`. -/
theorem c1_membership_classification (f : Filter) (col : Column) (w v : Value)
    (n : Int) (xs : List Value) :
    (f.add col (Value.record w)).clauses = f.clauses ++ [Comparison.In col w] ∧
    (f.add_not col (Value.record w)).clauses = f.clauses ++ [Comparison.NotIn col w] ∧
    (v.isRecord = false →
      (f.add col v).clauses = f.clauses ++ [Comparison.Equal col v] ∧
      (f.add_not col v).clauses = f.clauses ++ [Comparison.NotEqual col v]) ∧
    (Comparison.In col w).to_sql = col.to_sql ++ " = ANY(" ++ w.to_sql ++ ")" ∧
    (Comparison.NotIn col w).to_sql = col.to_sql ++ " <> ANY(" ++ w.to_sql ++ ")" ∧
    (Filter.add (Filter.mk [] JoinOp.And) col (Value.integer n)).to_sql =
      col.to_sql ++ " = " ++ intToString n ∧
    (Filter.add (Filter.mk [] JoinOp.And) col (Value.list xs)).to_sql =
      col.to_sql ++ " = " ++ (Value.list xs).to_sql := by
  refine ⟨rfl, rfl, ?_, rfl, rfl, rfl, rfl⟩
  intro hv
  cases v with
  | string s => exact ⟨rfl, rfl⟩
  | integer i => exact ⟨rfl, rfl⟩
  | list ys => exact ⟨rfl, rfl⟩
  | record u => simp [Value.isRecord] at hv

/-- C1 (witness): the non-record branch of the amended claim at the
concrete value `Integer 0`. -/
theorem c1_membership_classification_witness :
    (Value.integer 0).isRecord = false ∧
    (Filter.add (Filter.mk [] JoinOp.And) (Column.new "t" "c")
        (Value.integer 0)).clauses =
      (Filter.mk [] JoinOp.And).clauses ++
        [Comparison.Equal (Column.new "t" "c") (Value.integer 0)] :=
  ⟨by decide,
    ((c1_membership_classification (Filter.mk [] JoinOp.And) (Column.new "t" "c")
      (Value.integer 0) (Value.integer 0) 0 []).2.2.1 (by decide)).1⟩

/-- C2: `Filter::concat` succeeds exactly when the two operators are
equal, and the operator-mismatch assertion (modelled as `none`) fires
whenever they differ. -/
theorem c2_concat_requires_same_op (a b : Filter) :
    ((∃ r, a.concat b = some r) ↔ a.op = b.op) ∧
    (a.op ≠ b.op → a.concat b = none) := by
  constructor
  · constructor
    · rintro ⟨r, hr⟩
      by_contra h
      simp [Filter.concat, h] at hr
    · intro h
      exact ⟨Filter.mk (a.clauses ++ b.clauses) a.op, by simp [Filter.concat, h]⟩
  · intro h
    simp [Filter.concat, h]

/-- C2 (witness): concatenating an `AND`-filter with an `OR`-filter
fails. -/
theorem c2_concat_requires_same_op_witness :
    (Filter.mk [] JoinOp.And).op ≠ (Filter.mk [] JoinOp.Or).op ∧
    Filter.concat (Filter.mk [] JoinOp.And) (Filter.mk [] JoinOp.Or) = none :=
  ⟨by decide,
    (c2_concat_requires_same_op (Filter.mk [] JoinOp.And)
      (Filter.mk [] JoinOp.Or)).2 (by decide)⟩

/-- C3: for non-empty `a`, `b`, the cross-merges `a.and b` / `a.or b`
produce exactly two clauses, each operand wrapped as a nested
`Comparison::Filter`, so the rendering parenthesizes both sides; while
`concat` (on equal operators) flattens the clause lists, so its
rendering is the two renderings joined by the bare operator with no
added parentheses. -/
theorem c3_merge_wraps_concat_flattens (a b : Filter)
    (ha : a.clauses ≠ []) (hb : b.clauses ≠ []) :
    (a.and b).clauses = [Comparison.Filter a, Comparison.Filter b] ∧
    (a.or b).clauses = [Comparison.Filter a, Comparison.Filter b] ∧
    (a.and b).to_sql = "(" ++ a.to_sql ++ ")" ++ " AND " ++ ("(" ++ b.to_sql ++ ")") ∧
    (a.or b).to_sql = "(" ++ a.to_sql ++ ")" ++ " OR " ++ ("(" ++ b.to_sql ++ ")") ∧
    (a.op = b.op →
      a.concat b = some (Filter.mk (a.clauses ++ b.clauses) a.op) ∧
      (Filter.mk (a.clauses ++ b.clauses) a.op).to_sql =
        a.to_sql ++ (" " ++ a.op.to_sql ++ " ") ++ b.to_sql) := by
  have hand : a.and b = Filter.mk [Comparison.Filter a, Comparison.Filter b] JoinOp.And := by
    unfold Filter.and
    exact join_not_empty (is_empty_false ha) _ _
  have hor : a.or b = Filter.mk [Comparison.Filter a, Comparison.Filter b] JoinOp.Or := by
    unfold Filter.or
    exact join_not_empty (is_empty_false ha) _ _
  refine ⟨by rw [hand]; rfl, by rw [hor]; rfl, ?_, ?_, ?_⟩
  · rw [hand, to_sql_eq]
    show joinStr (" " ++ JoinOp.And.to_sql ++ " ")
      ["(" ++ a.to_sql ++ ")", "(" ++ b.to_sql ++ ")"] = _
    rw [joinStr_pair, sepAnd_eq]
  · rw [hor, to_sql_eq]
    show joinStr (" " ++ JoinOp.Or.to_sql ++ " ")
      ["(" ++ a.to_sql ++ ")", "(" ++ b.to_sql ++ ")"] = _
    rw [joinStr_pair, sepOr_eq]
  · intro hop
    refine ⟨by simp [Filter.concat, hop], ?_⟩
    rw [to_sql_eq]
    show joinStr (" " ++ a.op.to_sql ++ " ") (Comparison.listToSql (a.clauses ++ b.clauses)) = _
    rw [listToSql_append,
      joinStr_append _ _ _ (listToSql_ne ha) (listToSql_ne hb),
      to_sql_eq a, to_sql_eq b, hop]

/-- C3 (witness): the wrap/flatten behaviour at two concrete one-clause
`AND`-filters. -/
theorem c3_merge_wraps_concat_flattens_witness :
    (Filter.mk [Comparison.Equal (Column.new "t" "a") (Value.integer 1)] JoinOp.And).clauses ≠ [] ∧
    (Filter.mk [Comparison.Equal (Column.new "t" "b") (Value.integer 2)] JoinOp.And).clauses ≠ [] ∧
    ((Filter.mk [Comparison.Equal (Column.new "t" "a") (Value.integer 1)] JoinOp.And).and
        (Filter.mk [Comparison.Equal (Column.new "t" "b") (Value.integer 2)] JoinOp.And)).clauses =
      [Comparison.Filter (Filter.mk [Comparison.Equal (Column.new "t" "a") (Value.integer 1)] JoinOp.And),
       Comparison.Filter (Filter.mk [Comparison.Equal (Column.new "t" "b") (Value.integer 2)] JoinOp.And)] :=
  ⟨by simp [Filter.clauses], by simp [Filter.clauses],
    (c3_merge_wraps_concat_flattens
      (Filter.mk [Comparison.Equal (Column.new "t" "a") (Value.integer 1)] JoinOp.And)
      (Filter.mk [Comparison.Equal (Column.new "t" "b") (Value.integer 2)] JoinOp.And)
      (by simp [Filter.clauses]) (by simp [Filter.clauses])).1⟩

/-- C4: the empty filter is a left identity for `and` and `or`: merging
`Filter::default()` with `f` returns `f` itself (not wrapped), hence
equal renderings. -/
theorem c4_empty_left_identity (f : Filter) :
    Filter.default.and f = f ∧ Filter.default.or f = f ∧
    (Filter.default.and f).to_sql = f.to_sql ∧
    (Filter.default.or f).to_sql = f.to_sql :=
  ⟨rfl, rfl, rfl, rfl⟩

/-- C10: the empty-filter identity is left-sided only: for non-empty `f`,
`f.and(Filter::default())` wraps both operands, the second clause being
the wrapped empty filter, which renders as `()`: the result is
`(<f>) AND ()` (resp. `(<f>) OR ()`). -/
theorem c10_right_merge_wraps_empty (f : Filter) (h : f.clauses ≠ []) :
    (f.and Filter.default).clauses =
      [Comparison.Filter f, Comparison.Filter Filter.default] ∧
    (f.and Filter.default).to_sql = "(" ++ f.to_sql ++ ")" ++ " AND " ++ "()" ∧
    (f.or Filter.default).to_sql = "(" ++ f.to_sql ++ ")" ++ " OR " ++ "()" := by
  have hand : f.and Filter.default =
      Filter.mk [Comparison.Filter f, Comparison.Filter Filter.default] JoinOp.And := by
    unfold Filter.and
    exact join_not_empty (is_empty_false h) _ _
  have hor : f.or Filter.default =
      Filter.mk [Comparison.Filter f, Comparison.Filter Filter.default] JoinOp.Or := by
    unfold Filter.or
    exact join_not_empty (is_empty_false h) _ _
  have hparen : ("(" : String) ++ Filter.default.to_sql ++ ")" = "()" := by decide
  refine ⟨by rw [hand]; rfl, ?_, ?_⟩
  · rw [hand, to_sql_eq]
    show joinStr (" " ++ JoinOp.And.to_sql ++ " ")
      ["(" ++ f.to_sql ++ ")", "(" ++ Filter.default.to_sql ++ ")"] = _
    rw [joinStr_pair, sepAnd_eq, hparen]
  · rw [hor, to_sql_eq]
    show joinStr (" " ++ JoinOp.Or.to_sql ++ " ")
      ["(" ++ f.to_sql ++ ")", "(" ++ Filter.default.to_sql ++ ")"] = _
    rw [joinStr_pair, sepOr_eq, hparen]

/-- C10 (witness): the right-merge of a concrete one-clause filter with
the empty filter renders `(<f>) AND ()`. -/
theorem c10_right_merge_wraps_empty_witness :
    (Filter.mk [Comparison.Equal (Column.new "t" "a") (Value.integer 1)] JoinOp.And).clauses ≠ [] ∧
    ((Filter.mk [Comparison.Equal (Column.new "t" "a") (Value.integer 1)] JoinOp.And).and
        Filter.default).to_sql =
      "(" ++ (Filter.mk [Comparison.Equal (Column.new "t" "a") (Value.integer 1)] JoinOp.And).to_sql ++
        ")" ++ " AND " ++ "()" :=
  ⟨by simp [Filter.clauses],
    (c10_right_merge_wraps_empty
      (Filter.mk [Comparison.Equal (Column.new "t" "a") (Value.integer 1)] JoinOp.And)
      (by simp [Filter.clauses])).2.1⟩


theorem str_append_empty (s : String) : s ++ "" = s := by
  apply String.ext
  rw [String.data_append]
  simp

/-- C5: when both `no_conflict` and a non-empty `unique_by` are set, the
render path checks `no_conflict` first: the conflict clause is
`ON CONFLICT DO NOTHING ` and the full rendering is identical to the one
with `unique_by` erased — the `unique_by` columns are silently ignored. -/
theorem c5_no_conflict_wins (i : Insert) (h1 : i.no_conflict = true)
    (h2 : i.unique_by ≠ []) :
    i.conflictClause = "ON CONFLICT DO NOTHING " ∧
    i.to_sql = Insert.to_sql ⟨i.table_name, i.columns, i.placeholders, i.no_conflict, []⟩ := by
  obtain ⟨t, cols, ph, nc, ub⟩ := i
  subst h1
  exact ⟨rfl, rfl⟩

/-- C5 (witness): a concrete insert with both conflict options set
renders `DO NOTHING` and ignores its `unique_by` column. -/
theorem c5_no_conflict_wins_witness :
    (Insert.mk "users" [Column.nameOnly "email"] [Value.integer 1] true
        [Column.new "users" "email"]).no_conflict = true ∧
    (Insert.mk "users" [Column.nameOnly "email"] [Value.integer 1] true
        [Column.new "users" "email"]).unique_by ≠ [] ∧
    (Insert.mk "users" [Column.nameOnly "email"] [Value.integer 1] true
        [Column.new "users" "email"]).conflictClause = "ON CONFLICT DO NOTHING " :=
  ⟨rfl, by simp,
    (c5_no_conflict_wins
      (Insert.mk "users" [Column.nameOnly "email"] [Value.integer 1] true
        [Column.new "users" "email"]) rfl (by simp)).1⟩

/-- C6: with neither conflict option set, the rendering is exactly
`INSERT INTO "<table>" (<cols>) VALUES ($1, ..., $N) RETURNING *`, the
`N` placeholder markers being generated fresh at render time from the
column positions; and in every conflict mode the output ends with
`RETURNING *`. -/
theorem c6_plain_insert_rendering (i : Insert) :
    (∃ pre, i.to_sql = pre ++ "RETURNING *") ∧
    (i.no_conflict = false → i.unique_by = [] →
      i.to_sql =
        "INSERT INTO " ++ String.mk [dquote] ++ escIdent i.table_name ++
          String.mk [dquote] ++ " (" ++
          joinStr ", " (i.columns.map Column.to_sql) ++ ") VALUES (" ++
          joinStr ", "
            ((List.range i.columns.length).map (fun k => "$" ++ natToString (k + 1))) ++
          ") " ++ "RETURNING *") := by
  refine ⟨⟨_, rfl⟩, ?_⟩
  intro h1 h2
  obtain ⟨t, cols, ph, nc, ub⟩ := i
  subst h1
  simp only at h2
  subst h2
  show _ ++ Insert.conflictClause _ ++ "RETURNING *" = _
  have hcc : Insert.conflictClause (Insert.mk t cols ph false []) = "" := rfl
  rw [hcc, str_append_empty]

/-- C6 (witness): the exact rendering at a concrete two-column typed
record. -/
theorem c6_plain_insert_rendering_witness :
    (Insert.new "users" ["email", "name"]
        [Value.integer 1, Value.integer 2]).no_conflict = false ∧
    (Insert.new "users" ["email", "name"]
        [Value.integer 1, Value.integer 2]).unique_by = [] ∧
    (Insert.new "users" ["email", "name"]
        [Value.integer 1, Value.integer 2]).to_sql =
      "INSERT INTO \"users\" (\"email\", \"name\") VALUES ($1, $2) RETURNING *" :=
  ⟨rfl, rfl,
    ((c6_plain_insert_rendering
      (Insert.new "users" ["email", "name"]
        [Value.integer 1, Value.integer 2])).2 rfl rfl).trans (by decide)⟩

/-- C7: both constructors produce as many stored placeholders as columns:
`Insert::new` given the `Model` contract's parallel column-name/value
lists, and `Insert::from_columns` given parallel column/value arrays. -/
theorem c7_columns_placeholders_aligned (table : String) (names : List String)
    (values : List Value) (cols : List Column) (vals : List Value) :
    (names.length = values.length →
      (Insert.new table names values).columns.length =
        (Insert.new table names values).placeholders.length) ∧
    (cols.length = vals.length →
      (Insert.from_columns table cols vals).columns.length =
        (Insert.from_columns table cols vals).placeholders.length) := by
  constructor
  · intro h
    simp [Insert.new, h]
  · intro h
    simp [Insert.from_columns, h]

/-- C7 (witness): the alignment at concrete two-element inputs for both
constructors. -/
theorem c7_columns_placeholders_aligned_witness :
    (["a", "b"] : List String).length = ([Value.integer 1, Value.integer 2] : List Value).length ∧
    ([Column.nameOnly "a", Column.new "t" "b"] : List Column).length =
      ([Value.integer 1, Value.integer 2] : List Value).length ∧
    (Insert.new "t" ["a", "b"] [Value.integer 1, Value.integer 2]).columns.length =
      (Insert.new "t" ["a", "b"] [Value.integer 1, Value.integer 2]).placeholders.length ∧
    (Insert.from_columns "t" [Column.nameOnly "a", Column.new "t" "b"]
        [Value.integer 1, Value.integer 2]).columns.length =
      (Insert.from_columns "t" [Column.nameOnly "a", Column.new "t" "b"]
        [Value.integer 1, Value.integer 2]).placeholders.length :=
  ⟨rfl, rfl,
    (c7_columns_placeholders_aligned "t" ["a", "b"] [Value.integer 1, Value.integer 2]
      [Column.nameOnly "a", Column.new "t" "b"] [Value.integer 1, Value.integer 2]).1 rfl,
    (c7_columns_placeholders_aligned "t" ["a", "b"] [Value.integer 1, Value.integer 2]
      [Column.nameOnly "a", Column.new "t" "b"] [Value.integer 1, Value.integer 2]).2 rfl⟩


theorem mem_escIdentL : ∀ (l : List Char) (c : Char), c ∈ escIdentL l → c ∈ l ∨ c = dquote
  | [], c, h => by simp [escIdentL] at h
  | a :: as, c, h => by
    simp only [escIdentL] at h
    split at h
    · rcases List.mem_cons.mp h with rfl | h1
      · exact Or.inr rfl
      · rcases List.mem_cons.mp h1 with rfl | h2
        · exact Or.inr rfl
        · rcases mem_escIdentL as c h2 with h3 | h3
          · exact Or.inl (List.mem_cons_of_mem a h3)
          · exact Or.inr h3
    · rcases List.mem_cons.mp h with rfl | h1
      · exact Or.inl (List.mem_cons_self c as)
      · rcases mem_escIdentL as c h1 with h3 | h3
        · exact Or.inl (List.mem_cons_of_mem a h3)
        · exact Or.inr h3

theorem mem_escSingleL : ∀ (l : List Char) (c : Char), c ∈ escSingleL l → c ∈ l ∨ c = squote
  | [], c, h => by simp [escSingleL] at h
  | a :: as, c, h => by
    simp only [escSingleL] at h
    split at h
    · rcases List.mem_cons.mp h with rfl | h1
      · exact Or.inr rfl
      · rcases List.mem_cons.mp h1 with rfl | h2
        · exact Or.inr rfl
        · rcases mem_escSingleL as c h2 with h3 | h3
          · exact Or.inl (List.mem_cons_of_mem a h3)
          · exact Or.inr h3
    · rcases List.mem_cons.mp h with rfl | h1
      · exact Or.inl (List.mem_cons_self c as)
      · rcases mem_escSingleL as c h1 with h3 | h3
        · exact Or.inl (List.mem_cons_of_mem a h3)
        · exact Or.inr h3

theorem mem_chars_joinStr : ∀ (sep : String) (l : List String) (c : Char),
    c ∈ chars (joinStr sep l) → c ∈ chars sep ∨ ∃ s ∈ l, c ∈ chars s
  | sep, [], c, h => by
    have h0 : chars (joinStr sep []) = [] := rfl
    rw [h0] at h
    exact absurd h (List.not_mem_nil c)
  | sep, [s], c, h => Or.inr ⟨s, List.mem_cons_self s [], h⟩
  | sep, s :: s2 :: rest, c, h => by
    have h2 : c ∈ chars s ++ chars sep ++ chars (joinStr sep (s2 :: rest)) := h
    rcases List.mem_append.mp h2 with h3 | h3
    · rcases List.mem_append.mp h3 with h4 | h4
      · exact Or.inr ⟨s, List.mem_cons_self s _, h4⟩
      · exact Or.inl h4
    · rcases mem_chars_joinStr sep (s2 :: rest) c h3 with h4 | ⟨t, ht, hc⟩
      · exact Or.inl h4
      · exact Or.inr ⟨t, List.mem_cons_of_mem s ht, hc⟩

theorem digitChar_mem (n : Nat) : digitChar n ∈ chars "0123456789" := by
  unfold digitChar
  split <;> decide

theorem mem_natDigitsAux : ∀ (fuel n : Nat) (c : Char),
    c ∈ natDigitsAux fuel n → c ∈ chars "0123456789"
  | 0, n, c, h => absurd h (by simp [natDigitsAux])
  | fuel + 1, n, c, h => by
    simp only [natDigitsAux] at h
    split at h
    · rw [List.mem_singleton] at h
      exact h ▸ digitChar_mem n
    · rcases List.mem_append.mp h with h1 | h1
      · exact mem_natDigitsAux fuel (n / 10) c h1
      · rw [List.mem_singleton] at h1
        exact h1 ▸ digitChar_mem (n % 10)

theorem mem_chars_natToString (n : Nat) (c : Char) (h : c ∈ chars (natToString n)) :
    c ∈ chars "0123456789" :=
  mem_natDigitsAux (n + 1) n c h

theorem mem_chars_intToString (i : Int) (c : Char) (h : c ∈ chars (intToString i)) :
    c ∈ chars "-0123456789" := by
  unfold intToString at h
  split at h
  · have h2 : c ∈ chars "-" ++ chars (natToString i.natAbs) := h
    rcases List.mem_append.mp h2 with h3 | h3
    · exact (by decide : ∀ x ∈ chars "-", x ∈ chars "-0123456789") c h3
    · exact (by decide : ∀ x ∈ chars "0123456789", x ∈ chars "-0123456789") c
        (mem_chars_natToString _ _ h3)
  · exact (by decide : ∀ x ∈ chars "0123456789", x ∈ chars "-0123456789") c
      (mem_chars_natToString _ _ h)

theorem mem_chars_colSql : ∀ (col : Column) (c : Char), c ∈ chars col.to_sql →
    c ∈ col.dataChars ∨ c = dquote ∨ c = '.'
  | ⟨some t, nm⟩, c, h => by
    have h2 : c ∈ [dquote] ++ chars (escIdent t) ++ [dquote, '.', dquote] ++
        chars (escIdent nm) ++ [dquote] := h
    have hdata : (⟨some t, nm⟩ : Column).dataChars = chars t ++ chars nm := rfl
    rw [hdata]
    rcases List.mem_append.mp h2 with h3 | h3
    · rcases List.mem_append.mp h3 with h4 | h4
      · rcases List.mem_append.mp h4 with h5 | h5
        · rcases List.mem_append.mp h5 with h6 | h6
          · rw [List.mem_singleton] at h6
            exact Or.inr (Or.inl h6)
          · rcases mem_escIdentL (chars t) c h6 with h7 | h7
            · exact Or.inl (List.mem_append_left _ h7)
            · exact Or.inr (Or.inl h7)
        · simp only [List.mem_cons, List.not_mem_nil, or_false] at h5
          rcases h5 with h6 | h6 | h6
          · exact Or.inr (Or.inl h6)
          · exact Or.inr (Or.inr h6)
          · exact Or.inr (Or.inl h6)
      · rcases mem_escIdentL (chars nm) c h4 with h7 | h7
        · exact Or.inl (List.mem_append_right _ h7)
        · exact Or.inr (Or.inl h7)
    · rw [List.mem_singleton] at h3
      exact Or.inr (Or.inl h3)
  | ⟨none, nm⟩, c, h => by
    have h2 : c ∈ [dquote] ++ chars (escIdent nm) ++ [dquote] := h
    have hdata : (⟨none, nm⟩ : Column).dataChars = [] ++ chars nm := rfl
    rw [hdata]
    rcases List.mem_append.mp h2 with h3 | h3
    · rcases List.mem_append.mp h3 with h4 | h4
      · rw [List.mem_singleton] at h4
        exact Or.inr (Or.inl h4)
      · rcases mem_escIdentL (chars nm) c h4 with h7 | h7
        · exact Or.inl (List.mem_append_right _ h7)
        · exact Or.inr (Or.inl h7)
    · rw [List.mem_singleton] at h3
      exact Or.inr (Or.inl h3)


mutual

theorem mem_chars_valueSql : ∀ (v : Value) (c : Char), c ∈ chars v.to_sql →
    c ∈ valueSkelChars ∨ c ∈ v.strChars
  | .string s, c, h => by
    have h2 : c ∈ [squote] ++ chars (escSingle s) ++ [squote] := h
    rcases List.mem_append.mp h2 with h3 | h3
    · rcases List.mem_append.mp h3 with h4 | h4
      · rw [List.mem_singleton] at h4
        exact Or.inl (h4 ▸ (by decide : squote ∈ valueSkelChars))
      · rcases mem_escSingleL (chars s) c h4 with h5 | h5
        · exact Or.inr h5
        · exact Or.inl (h5 ▸ (by decide : squote ∈ valueSkelChars))
    · rw [List.mem_singleton] at h3
      exact Or.inl (h3 ▸ (by decide : squote ∈ valueSkelChars))
  | .integer i, c, h =>
    Or.inl ((by decide : ∀ x ∈ chars "-0123456789", x ∈ valueSkelChars) c
      (mem_chars_intToString i c h))
  | .list xs, c, h => by
    have h2 : c ∈ chars "\x7b" ++ chars (joinStr ", " (Value.listToSql xs)) ++
        chars "\x7d" := h
    rcases List.mem_append.mp h2 with h3 | h3
    · rcases List.mem_append.mp h3 with h4 | h4
      · exact Or.inl ((by decide : ∀ x ∈ chars "\x7b", x ∈ valueSkelChars) c h4)
      · rcases mem_chars_joinStr ", " (Value.listToSql xs) c h4 with h5 | ⟨t, ht, hc⟩
        · exact Or.inl ((by decide : ∀ x ∈ chars ", ", x ∈ valueSkelChars) c h5)
        · exact mem_chars_valueListSql xs c t ht hc
    · exact Or.inl ((by decide : ∀ x ∈ chars "\x7d", x ∈ valueSkelChars) c h3)
  | .record v, c, h => mem_chars_valueSql v c h

theorem mem_chars_valueListSql : ∀ (l : List Value) (c : Char) (s : String),
    s ∈ Value.listToSql l → c ∈ chars s → c ∈ valueSkelChars ∨ c ∈ Value.listStrChars l
  | [], c, s, hs, hc => absurd hs (by simp [Value.listToSql])
  | v :: vs, c, s, hs, hc => by
    have hs2 : s ∈ Value.to_sql v :: Value.listToSql vs := hs
    rcases List.mem_cons.mp hs2 with rfl | h1
    · rcases mem_chars_valueSql v c hc with h2 | h2
      · exact Or.inl h2
      · exact Or.inr (List.mem_append_left _ h2)
    · rcases mem_chars_valueListSql vs c s h1 hc with h2 | h2
      · exact Or.inl h2
      · exact Or.inr (List.mem_append_right _ h2)

end

mutual

theorem mem_chars_cmpSql : ∀ (cp : Comparison) (c : Char), c ∈ chars cp.to_sql →
    c ∈ filterSkelChars ∨ c ∈ cp.dataChars
  | .Equal col v, c, h => by
    have h2 : c ∈ chars col.to_sql ++ chars " = " ++ chars v.to_sql := h
    rcases List.mem_append.mp h2 with h3 | h3
    · rcases List.mem_append.mp h3 with h4 | h4
      · rcases mem_chars_colSql col c h4 with h5 | h5 | h5
        · exact Or.inr (List.mem_append_left _ h5)
        · exact Or.inl (h5 ▸ (by decide : dquote ∈ filterSkelChars))
        · exact Or.inl (h5 ▸ (by decide : ('.' : Char) ∈ filterSkelChars))
      · exact Or.inl ((by decide : ∀ x ∈ chars " = ", x ∈ filterSkelChars) c h4)
    · rcases mem_chars_valueSql v c h3 with h5 | h5
      · exact Or.inl ((by decide : ∀ x ∈ valueSkelChars, x ∈ filterSkelChars) c h5)
      · exact Or.inr (List.mem_append_right _ h5)
  | .In col v, c, h => by
    have h2 : c ∈ chars col.to_sql ++ chars " = ANY(" ++ chars v.to_sql ++ chars ")" := h
    rcases List.mem_append.mp h2 with h3 | h3
    · rcases List.mem_append.mp h3 with h4 | h4
      · rcases List.mem_append.mp h4 with h5 | h5
        · rcases mem_chars_colSql col c h5 with h6 | h6 | h6
          · exact Or.inr (List.mem_append_left _ h6)
          · exact Or.inl (h6 ▸ (by decide : dquote ∈ filterSkelChars))
          · exact Or.inl (h6 ▸ (by decide : ('.' : Char) ∈ filterSkelChars))
        · exact Or.inl ((by decide : ∀ x ∈ chars " = ANY(", x ∈ filterSkelChars) c h5)
      · rcases mem_chars_valueSql v c h4 with h5 | h5
        · exact Or.inl ((by decide : ∀ x ∈ valueSkelChars, x ∈ filterSkelChars) c h5)
        · exact Or.inr (List.mem_append_right _ h5)
    · exact Or.inl ((by decide : ∀ x ∈ chars ")", x ∈ filterSkelChars) c h3)
  | .NotIn col v, c, h => by
    have h2 : c ∈ chars col.to_sql ++ chars " <> ANY(" ++ chars v.to_sql ++ chars ")" := h
    rcases List.mem_append.mp h2 with h3 | h3
    · rcases List.mem_append.mp h3 with h4 | h4
      · rcases List.mem_append.mp h4 with h5 | h5
        · rcases mem_chars_colSql col c h5 with h6 | h6 | h6
          · exact Or.inr (List.mem_append_left _ h6)
          · exact Or.inl (h6 ▸ (by decide : dquote ∈ filterSkelChars))
          · exact Or.inl (h6 ▸ (by decide : ('.' : Char) ∈ filterSkelChars))
        · exact Or.inl ((by decide : ∀ x ∈ chars " <> ANY(", x ∈ filterSkelChars) c h5)
      · rcases mem_chars_valueSql v c h4 with h5 | h5
        · exact Or.inl ((by decide : ∀ x ∈ valueSkelChars, x ∈ filterSkelChars) c h5)
        · exact Or.inr (List.mem_append_right _ h5)
    · exact Or.inl ((by decide : ∀ x ∈ chars ")", x ∈ filterSkelChars) c h3)
  | .NotEqual col v, c, h => by
    have h2 : c ∈ chars col.to_sql ++ chars " <> " ++ chars v.to_sql := h
    rcases List.mem_append.mp h2 with h3 | h3
    · rcases List.mem_append.mp h3 with h4 | h4
      · rcases mem_chars_colSql col c h4 with h5 | h5 | h5
        · exact Or.inr (List.mem_append_left _ h5)
        · exact Or.inl (h5 ▸ (by decide : dquote ∈ filterSkelChars))
        · exact Or.inl (h5 ▸ (by decide : ('.' : Char) ∈ filterSkelChars))
      · exact Or.inl ((by decide : ∀ x ∈ chars " <> ", x ∈ filterSkelChars) c h4)
    · rcases mem_chars_valueSql v c h3 with h5 | h5
      · exact Or.inl ((by decide : ∀ x ∈ valueSkelChars, x ∈ filterSkelChars) c h5)
      · exact Or.inr (List.mem_append_right _ h5)
  | .Filter f, c, h => by
    have h2 : c ∈ chars "(" ++ chars f.to_sql ++ chars ")" := h
    rcases List.mem_append.mp h2 with h3 | h3
    · rcases List.mem_append.mp h3 with h4 | h4
      · exact Or.inl ((by decide : ∀ x ∈ chars "(", x ∈ filterSkelChars) c h4)
      · exact mem_chars_filterSql f c h4
    · exact Or.inl ((by decide : ∀ x ∈ chars ")", x ∈ filterSkelChars) c h3)

theorem mem_chars_filterSql : ∀ (f : Filter) (c : Char), c ∈ chars f.to_sql →
    c ∈ filterSkelChars ∨ c ∈ f.dataChars
  | .mk cs o, c, h => by
    have h2 : c ∈ chars (joinStr (" " ++ o.to_sql ++ " ") (Comparison.listToSql cs)) := h
    rcases mem_chars_joinStr _ _ c h2 with h3 | ⟨s, hs, hc⟩
    · have h4 : c ∈ chars " " ++ chars o.to_sql ++ chars " " := h3
      rcases List.mem_append.mp h4 with h5 | h5
      · rcases List.mem_append.mp h5 with h6 | h6
        · exact Or.inl ((by decide : ∀ x ∈ chars " ", x ∈ filterSkelChars) c h6)
        · cases o with
          | And => exact Or.inl ((by decide : ∀ x ∈ chars "AND", x ∈ filterSkelChars) c h6)
          | Or => exact Or.inl ((by decide : ∀ x ∈ chars "OR", x ∈ filterSkelChars) c h6)
      · exact Or.inl ((by decide : ∀ x ∈ chars " ", x ∈ filterSkelChars) c h5)
    · exact mem_chars_clausesSql cs c s hs hc

theorem mem_chars_clausesSql : ∀ (l : List Comparison) (c : Char) (s : String),
    s ∈ Comparison.listToSql l → c ∈ chars s →
    c ∈ filterSkelChars ∨ c ∈ Comparison.listDataChars l
  | [], c, s, hs, hc => absurd hs (by simp [Comparison.listToSql])
  | cp :: cps, c, s, hs, hc => by
    have hs2 : s ∈ Comparison.to_sql cp :: Comparison.listToSql cps := hs
    rcases List.mem_cons.mp hs2 with rfl | h1
    · rcases mem_chars_cmpSql cp c hc with h2 | h2
      · exact Or.inl h2
      · exact Or.inr (List.mem_append_left _ h2)
    · rcases mem_chars_clausesSql cps c s h1 hc with h2 | h2
      · exact Or.inl h2
      · exact Or.inr (List.mem_append_right _ h2)

end

/-- C9: `WhereClause::to_sql` is empty for an empty filter and otherwise
`" WHERE "` (leading space and keyword) followed by the filter's SQL;
`Filter::to_sql` itself never emits the `WHERE` keyword (for any filter
whose column names, table names and string values do not themselves
contain the character `W`). -/
theorem c9_where_clause_rendering (w : WhereClause) (f : Filter) :
    (w.filter.clauses = [] → w.to_sql = "") ∧
    (w.filter.clauses ≠ [] → w.to_sql = " WHERE " ++ w.filter.to_sql) ∧
    (('W' : Char) ∉ f.dataChars → ¬ ("WHERE".data <:+: (f.to_sql).data)) := by
  refine ⟨?_, ?_, ?_⟩
  · intro h
    have he : w.filter.is_empty = true := by simp [Filter.is_empty, h]
    simp [WhereClause.to_sql, he]
  · intro h
    simp [WhereClause.to_sql, is_empty_false h]
  · intro hW hinf
    have hc : ('W' : Char) ∈ chars f.to_sql := hinf.sublist.subset (by decide)
    rcases mem_chars_filterSql f 'W' hc with h | h
    · exact absurd h (by decide)
    · exact hW h

/-- C9 (witness): the empty and non-empty renderings, and the absence of
`WHERE` from a concrete filter's own rendering. -/
theorem c9_where_clause_rendering_witness :
    (WhereClause.mk (Filter.mk [] JoinOp.And)).filter.clauses = [] ∧
    (WhereClause.mk (Filter.mk [] JoinOp.And)).to_sql = "" ∧
    (WhereClause.mk (Filter.mk [Comparison.Equal (Column.new "t" "c")
        (Value.integer 5)] JoinOp.And)).filter.clauses ≠ [] ∧
    (WhereClause.mk (Filter.mk [Comparison.Equal (Column.new "t" "c")
        (Value.integer 5)] JoinOp.And)).to_sql =
      " WHERE " ++ (Filter.mk [Comparison.Equal (Column.new "t" "c")
        (Value.integer 5)] JoinOp.And).to_sql ∧
    ('W' : Char) ∉ (Filter.mk [Comparison.Equal (Column.new "t" "c")
        (Value.integer 5)] JoinOp.And).dataChars ∧
    ¬ ("WHERE".data <:+:
        ((Filter.mk [Comparison.Equal (Column.new "t" "c")
          (Value.integer 5)] JoinOp.And).to_sql).data) :=
  ⟨rfl,
    (c9_where_clause_rendering (WhereClause.mk (Filter.mk [] JoinOp.And))
      (Filter.mk [] JoinOp.And)).1 rfl,
    by simp [Filter.clauses],
    (c9_where_clause_rendering
      (WhereClause.mk (Filter.mk [Comparison.Equal (Column.new "t" "c")
        (Value.integer 5)] JoinOp.And))
      (Filter.mk [] JoinOp.And)).2.1 (by simp [Filter.clauses]),
    by decide,
    (c9_where_clause_rendering (WhereClause.mk (Filter.mk [] JoinOp.And))
      (Filter.mk [Comparison.Equal (Column.new "t" "c")
        (Value.integer 5)] JoinOp.And)).2.2 (by decide)⟩


theorem to_sql_decomp (i : Insert) :
    i.to_sql = i.preSql ++ i.conflictClause ++ "RETURNING *" := rfl

theorem mem_unqualify (col : Column) (c : Char)
    (h : c ∈ (Column.unqualify col).dataChars) : c ∈ col.dataChars := by
  obtain ⟨tb, nm⟩ := col
  have h2 : c ∈ chars nm := h
  exact List.mem_append_right _ h2

theorem lower_of_identOk {i : Insert} (h : i.identOk = true) {c : Char}
    (hc : c ∈ i.dataChars) : lowerIdentChar c = true :=
  List.all_eq_true.mp h c hc

theorem mem_chars_preSql (i : Insert) (c : Char) (h : c ∈ chars i.preSql) :
    c ∈ insertPreSkel ∨ c ∈ i.dataChars := by
  obtain ⟨t, cols, ph, nc, ub⟩ := i
  have h2 : c ∈ chars "INSERT INTO " ++ [dquote] ++ chars (escIdent t) ++ [dquote] ++
      chars " (" ++ chars (joinStr ", " (cols.map Column.to_sql)) ++
      chars ") VALUES (" ++
      chars (joinStr ", "
        ((List.range cols.length).map (fun k => "$" ++ natToString (k + 1)))) ++
      chars ") " := h
  have hdata : (Insert.mk t cols ph nc ub).dataChars =
      chars t ++ (cols.map Column.dataChars).flatten ++
        (ub.map Column.dataChars).flatten := rfl
  rw [hdata]
  rcases List.mem_append.mp h2 with h3 | h3
  · rcases List.mem_append.mp h3 with h4 | h4
    · rcases List.mem_append.mp h4 with h5 | h5
      · rcases List.mem_append.mp h5 with h6 | h6
        · rcases List.mem_append.mp h6 with h7 | h7
          · rcases List.mem_append.mp h7 with h8 | h8
            · rcases List.mem_append.mp h8 with h9 | h9
              · rcases List.mem_append.mp h9 with h10 | h10
                · exact Or.inl
                    ((by decide : ∀ x ∈ chars "INSERT INTO ", x ∈ insertPreSkel) c h10)
                · rw [List.mem_singleton] at h10
                  exact Or.inl (h10 ▸ (by decide : dquote ∈ insertPreSkel))
              · rcases mem_escIdentL (chars t) c h9 with ha | ha
                · exact Or.inr (List.mem_append_left _ (List.mem_append_left _ ha))
                · exact Or.inl (ha ▸ (by decide : dquote ∈ insertPreSkel))
            · rw [List.mem_singleton] at h8
              exact Or.inl (h8 ▸ (by decide : dquote ∈ insertPreSkel))
          · exact Or.inl ((by decide : ∀ x ∈ chars " (", x ∈ insertPreSkel) c h7)
        · rcases mem_chars_joinStr ", " (cols.map Column.to_sql) c h6 with ha | ⟨s, hsm, hcs⟩
          · exact Or.inl ((by decide : ∀ x ∈ chars ", ", x ∈ insertPreSkel) c ha)
          · rcases List.mem_map.mp hsm with ⟨col, hcol, rfl⟩
            rcases mem_chars_colSql col c hcs with hb | hb | hb
            · exact Or.inr (List.mem_append_left _ (List.mem_append_right _
                (List.mem_flatten.mpr ⟨col.dataChars, List.mem_map_of_mem _ hcol, hb⟩)))
            · exact Or.inl (hb ▸ (by decide : dquote ∈ insertPreSkel))
            · exact Or.inl (hb ▸ (by decide : ('.' : Char) ∈ insertPreSkel))
      · exact Or.inl ((by decide : ∀ x ∈ chars ") VALUES (", x ∈ insertPreSkel) c h5)
    · rcases mem_chars_joinStr ", " _ c h4 with ha | ⟨s, hsm, hcs⟩
      · exact Or.inl ((by decide : ∀ x ∈ chars ", ", x ∈ insertPreSkel) c ha)
      · rcases List.mem_map.mp hsm with ⟨k, hk, rfl⟩
        have hcs2 : c ∈ chars "$" ++ chars (natToString (k + 1)) := hcs
        rcases List.mem_append.mp hcs2 with hb | hb
        · exact Or.inl ((by decide : ∀ x ∈ chars "$", x ∈ insertPreSkel) c hb)
        · exact Or.inl ((by decide : ∀ x ∈ chars "0123456789", x ∈ insertPreSkel) c
            (mem_chars_natToString _ _ hb))
  · exact Or.inl ((by decide : ∀ x ∈ chars ") ", x ∈ insertPreSkel) c h3)

theorem mem_chars_insert_nc (i : Insert) (hnc : i.no_conflict = true) (c : Char)
    (h : c ∈ chars i.to_sql) : c ∈ insertSkelNC ∨ c ∈ i.dataChars := by
  have hcc : i.conflictClause = "ON CONFLICT DO NOTHING " := by
    simp [Insert.conflictClause, hnc]
  rw [to_sql_decomp, hcc] at h
  have h2 : c ∈ chars i.preSql ++ chars "ON CONFLICT DO NOTHING " ++
      chars "RETURNING *" := h
  rcases List.mem_append.mp h2 with h3 | h3
  · rcases List.mem_append.mp h3 with h4 | h4
    · rcases mem_chars_preSql i c h4 with h5 | h5
      · exact Or.inl ((by decide : ∀ x ∈ insertPreSkel, x ∈ insertSkelNC) c h5)
      · exact Or.inr h5
    · exact Or.inl
        ((by decide : ∀ x ∈ chars "ON CONFLICT DO NOTHING ", x ∈ insertSkelNC) c h4)
  · exact Or.inl ((by decide : ∀ x ∈ chars "RETURNING *", x ∈ insertSkelNC) c h3)

theorem isEmpty_false_of_ne {α : Type} {l : List α} (h : l ≠ []) : l.isEmpty = false := by
  cases l with
  | nil => exact absurd rfl h
  | cons a as => rfl

theorem conflictClause_ub (i : Insert) (hnc : i.no_conflict = false)
    (hub : i.unique_by ≠ []) :
    i.conflictClause = "ON CONFLICT (" ++
      joinStr ", " ((i.unique_by.map Column.unqualify).map Column.to_sql) ++
      ") DO UPDATE SET " ++
      joinStr ", " ((i.unique_by.map Column.unqualify).map
        (fun cl => cl.to_sql ++ " = EXCLUDED." ++ cl.to_sql)) ++ " " := by
  simp [Insert.conflictClause, hnc, isEmpty_false_of_ne hub]

theorem mem_chars_insert_ub (i : Insert) (hnc : i.no_conflict = false)
    (hub : i.unique_by ≠ []) (c : Char) (h : c ∈ chars i.to_sql) :
    c ∈ insertSkelUB ∨ c ∈ i.dataChars := by
  rw [to_sql_decomp, conflictClause_ub i hnc hub] at h
  have h2 : c ∈ chars i.preSql ++ (chars "ON CONFLICT (" ++
      chars (joinStr ", " ((i.unique_by.map Column.unqualify).map Column.to_sql)) ++
      chars ") DO UPDATE SET " ++
      chars (joinStr ", " ((i.unique_by.map Column.unqualify).map
        (fun cl => cl.to_sql ++ " = EXCLUDED." ++ cl.to_sql))) ++ chars " ") ++
      chars "RETURNING *" := h
  rcases List.mem_append.mp h2 with h3 | h3
  · rcases List.mem_append.mp h3 with h4 | h4
    · rcases mem_chars_preSql i c h4 with h5 | h5
      · exact Or.inl ((by decide : ∀ x ∈ insertPreSkel, x ∈ insertSkelUB) c h5)
      · exact Or.inr h5
    · rcases List.mem_append.mp h4 with h5 | h5
      · rcases List.mem_append.mp h5 with h6 | h6
        · rcases List.mem_append.mp h6 with h7 | h7
          · rcases List.mem_append.mp h7 with h8 | h8
            · exact Or.inl
                ((by decide : ∀ x ∈ chars "ON CONFLICT (", x ∈ insertSkelUB) c h8)
            · rcases mem_chars_joinStr ", " _ c h8 with ha | ⟨s, hsm, hcs⟩
              · exact Or.inl ((by decide : ∀ x ∈ chars ", ", x ∈ insertSkelUB) c ha)
              · rcases List.mem_map.mp hsm with ⟨col2, hcol2, rfl⟩
                rcases List.mem_map.mp hcol2 with ⟨col, hcol, rfl⟩
                rcases mem_chars_colSql (Column.unqualify col) c hcs with hb | hb | hb
                · exact Or.inr (List.mem_append_right _
                    (List.mem_flatten.mpr ⟨col.dataChars, List.mem_map_of_mem _ hcol,
                      mem_unqualify col c hb⟩))
                · exact Or.inl (hb ▸ (by decide : dquote ∈ insertSkelUB))
                · exact Or.inl (hb ▸ (by decide : ('.' : Char) ∈ insertSkelUB))
          · exact Or.inl
              ((by decide : ∀ x ∈ chars ") DO UPDATE SET ", x ∈ insertSkelUB) c h7)
        · rcases mem_chars_joinStr ", " _ c h6 with ha | ⟨s, hsm, hcs⟩
          · exact Or.inl ((by decide : ∀ x ∈ chars ", ", x ∈ insertSkelUB) c ha)
          · rcases List.mem_map.mp hsm with ⟨col2, hcol2, rfl⟩
            rcases List.mem_map.mp hcol2 with ⟨col, hcol, rfl⟩
            have hcs2 : c ∈ chars (Column.unqualify col).to_sql ++
                chars " = EXCLUDED." ++ chars (Column.unqualify col).to_sql := hcs
            rcases List.mem_append.mp hcs2 with hb | hb
            · rcases List.mem_append.mp hb with hbb | hbb
              · rcases mem_chars_colSql (Column.unqualify col) c hbb with hc2 | hc2 | hc2
                · exact Or.inr (List.mem_append_right _
                    (List.mem_flatten.mpr ⟨col.dataChars, List.mem_map_of_mem _ hcol,
                      mem_unqualify col c hc2⟩))
                · exact Or.inl (hc2 ▸ (by decide : dquote ∈ insertSkelUB))
                · exact Or.inl (hc2 ▸ (by decide : ('.' : Char) ∈ insertSkelUB))
              · exact Or.inl
                  ((by decide : ∀ x ∈ chars " = EXCLUDED.", x ∈ insertSkelUB) c hbb)
            · rcases mem_chars_colSql (Column.unqualify col) c hb with hc2 | hc2 | hc2
              · exact Or.inr (List.mem_append_right _
                  (List.mem_flatten.mpr ⟨col.dataChars, List.mem_map_of_mem _ hcol,
                    mem_unqualify col c hc2⟩))
              · exact Or.inl (hc2 ▸ (by decide : dquote ∈ insertSkelUB))
              · exact Or.inl (hc2 ▸ (by decide : ('.' : Char) ∈ insertSkelUB))
      · exact Or.inl ((by decide : ∀ x ∈ chars " ", x ∈ insertSkelUB) c h5)
  · exact Or.inl ((by decide : ∀ x ∈ chars "RETURNING *", x ∈ insertSkelUB) c h3)

/-- C8 (counterexample): an `Insert` whose (adversarial) table name is the
string `DO UPDATE`, with `no_conflict` set, renders an output that does
contain `DO UPDATE`, so the quantification over every `Insert` fails. -/
theorem c8_conflict_keyword_counterexample :
    (Insert.mk "DO UPDATE" [Column.nameOnly "a"] [Value.integer 1] true []).no_conflict
      = true ∧
    Insert.to_sql (Insert.mk "DO UPDATE" [Column.nameOnly "a"] [Value.integer 1] true []) =
      "INSERT INTO \"DO UPDATE\" (\"a\") VALUES ($1) ON CONFLICT DO NOTHING RETURNING *" ∧
    ("DO UPDATE".data <:+:
      (Insert.to_sql
        (Insert.mk "DO UPDATE" [Column.nameOnly "a"] [Value.integer 1] true [])).data) := by
  refine ⟨rfl, by decide, ?_⟩
  decide

/-- C8 (amended): for every `Insert` whose table and column names are made
of ordinary identifier characters (lowercase letters, digits,
underscore), the rendering with `no_conflict` set never contains
`DO UPDATE`, and the rendering in `unique_by` mode never contains
`DO NOTHING`; the `unique_by` conflict clause is
`ON CONFLICT (<unqualified columns>) DO UPDATE SET col = EXCLUDED.col, ...`
with every given column unqualified in both lists. -/
theorem c8_conflict_variants_distinguishable (i : Insert) (hok : i.identOk = true) :
    (i.no_conflict = true → ¬ ("DO UPDATE".data <:+: (i.to_sql).data)) ∧
    (i.no_conflict = false → i.unique_by ≠ [] →
      ¬ ("DO NOTHING".data <:+: (i.to_sql).data) ∧
      i.conflictClause = "ON CONFLICT (" ++
        joinStr ", " ((i.unique_by.map Column.unqualify).map Column.to_sql) ++
        ") DO UPDATE SET " ++
        joinStr ", " ((i.unique_by.map Column.unqualify).map
          (fun cl => cl.to_sql ++ " = EXCLUDED." ++ cl.to_sql)) ++ " ") := by
  constructor
  · intro hnc hinf
    have hP : ('P' : Char) ∈ chars i.to_sql := hinf.sublist.subset (by decide)
    rcases mem_chars_insert_nc i hnc 'P' hP with h | h
    · exact absurd h (by decide)
    · exact absurd (lower_of_identOk hok h) (by decide)
  · intro hnc hub
    refine ⟨?_, conflictClause_ub i hnc hub⟩
    intro hinf
    have hH : ('H' : Char) ∈ chars i.to_sql := hinf.sublist.subset (by decide)
    rcases mem_chars_insert_ub i hnc hub 'H' hH with h | h
    · exact absurd h (by decide)
    · exact absurd (lower_of_identOk hok h) (by decide)

/-- C8 (witness): both branches of the amended claim at concrete
inserts with ordinary identifiers. -/
theorem c8_conflict_variants_distinguishable_witness :
    (Insert.mk "users" [Column.nameOnly "email"] [Value.integer 1] true []).identOk
      = true ∧
    ¬ ("DO UPDATE".data <:+:
      (Insert.to_sql
        (Insert.mk "users" [Column.nameOnly "email"] [Value.integer 1] true [])).data) ∧
    (Insert.mk "users" [Column.nameOnly "email"] [Value.integer 1] false
        [Column.new "users" "email"]).identOk = true ∧
    (Insert.mk "users" [Column.nameOnly "email"] [Value.integer 1] false
        [Column.new "users" "email"]).unique_by ≠ [] ∧
    ¬ ("DO NOTHING".data <:+:
      (Insert.to_sql
        (Insert.mk "users" [Column.nameOnly "email"] [Value.integer 1] false
          [Column.new "users" "email"])).data) :=
  ⟨by decide,
    (c8_conflict_variants_distinguishable
      (Insert.mk "users" [Column.nameOnly "email"] [Value.integer 1] true [])
      (by decide)).1 rfl,
    by decide,
    by simp,
    ((c8_conflict_variants_distinguishable
      (Insert.mk "users" [Column.nameOnly "email"] [Value.integer 1] false
        [Column.new "users" "email"])
      (by decide)).2 rfl (by simp)).1⟩

end Rwf
